import Mathlib

/-!
Verification of the call-tracing decorator in `src/calltrace.py`.

The module provides a `@trace` decorator that wraps functions, methods or all
methods of a class, emitting a call-line, a return-line and (on failure) an
exception-line plus stack trace for every invocation.  A recursion guard
(`_threads_in_safe_str` / `_safe_str` / `_check_recursion_loop`) suppresses
trace emission while a value is being stringified for a trace message.

The embedding below is a direct transliteration of the Python source:
  * `PyErr` models the exception kinds that occur in the source;
  * `TraceState` models the mutable module state: the `_threads_in_safe_str`
    set and the sequence of messages handed to `_output`;
  * `safe_str` models `_safe_str`, `check_recursion_loop` models
    `_check_recursion_loop`;
  * `FunctionTracer`/`init_tracer` model `_FunctionTracer.__init__` together
    with `_get_details`, `_select_call_format` and `_select_handle_self`;
  * `handle_self_*` model the three static argument strategies;
  * `format_arguments`, `format_call`, `log_call`, `log_return`,
    `log_exception` model the corresponding `_FunctionTracer` methods;
  * `call_pre` models lines 223-228 of `_call` (recursion check, the
    `instance = 0` sentinel, `thread_id` assignment and PRE-CALL emission) and
    `tracer_call` models the whole of `_call`;
  * `trace_method`, `wrapped_function`, `trace_class` and `trace` model the
    decoration-time machinery.

Stringification of a value may itself re-enter traced code, so the embedding
is parametric in the value type `V` via `ValOps`: `ident` models Python `id`
and `pystr` models `str`, which may read and modify the trace state and may
raise.  The simple instantiation `value_ops` (over `Value`) gives every value
a fixed `str` outcome; the instantiation `rpystr` (over `RVal`) models the
recursive scenario of a traced `__str__` that calls a second traced method,
with fuel standing for the Python recursion limit (exceeding it raises
`RuntimeError`, exactly the exception `_safe_str` recovers from).
-/

namespace CallTrace

/-- Exception kinds appearing in the source: `RuntimeError` (Python recursion
limit, caught by `_safe_str`), `TypeError` (raised by `trace` and by test
bodies), `ValueError` (an arbitrary other exception kind), and the
`UnboundLocalError` produced by reading a local variable that was never
assigned. -/
inductive PyErr where
  | runtimeError
  | typeError (msg : String)
  | valueError (msg : String)
  | unboundLocal (vname : String)
deriving Repr, DecidableEq, Inhabited

/-- The mutable module-level state of `calltrace.py`: the set
`_threads_in_safe_str` of thread ids currently inside `_safe_str`, and the
ordered list of messages passed to `_output` (the emission sink; the actual
`_output` prepends the constant text `CallTracing:` when printing, which we
leave out as the tests do, comparing the messages handed to the sink). -/
structure TraceState where
  threads_in_safe_str : List Nat
  output : List String
deriving Repr, DecidableEq, Inhabited

/-- Python `set.add`: no-op when the element is already present. -/
def set_add (l : List Nat) (x : Nat) : List Nat :=
  if x ∈ l then l else x :: l

/-- Python `set.remove` (the element is always present at the call sites in
the source, so modelling removal of every occurrence is exact). -/
def set_remove (l : List Nat) (x : Nat) : List Nat :=
  l.filter (fun y => decide (y ≠ x))

/-- Model of `_check_recursion_loop`: is the current thread id in
`_threads_in_safe_str`? -/
def check_recursion_loop (tid : Nat) (st : TraceState) : Bool :=
  decide (tid ∈ st.threads_in_safe_str)

/-- Model of a call to `_output(msg)`: append the message to the emitted
output. -/
def output_msg (msg : String) (st : TraceState) : TraceState :=
  { st with output := st.output ++ [msg] }

/-- Operations the tracer needs on values of type `V`: `ident` models the
Python builtin `id`, and `pystr` models `str`, which may touch the trace
state (a traced `__str__` runs wrapped code) and may raise. -/
structure ValOps (V : Type) where
  ident : V → Nat
  pystr : V → TraceState → Except PyErr String × TraceState

/-- Model of `_safe_str`: add the current thread id to
`_threads_in_safe_str`, call `str(obj)`; a `RuntimeError` is recovered by
returning `str(id(obj))`; any other exception propagates; the `finally`
block removes the thread id on every exit path. -/
def safe_str {V : Type} (ops : ValOps V) (tid : Nat) (v : V) (st : TraceState) :
    Except PyErr String × TraceState :=
  let st1 := { st with threads_in_safe_str := set_add st.threads_in_safe_str tid }
  let r := ops.pystr v st1
  let res : Except PyErr String :=
    match r.1 with
    | .ok s => .ok s
    | .error .runtimeError => .ok (toString (ops.ident v))
    | .error e => .error e
  (res, { r.2 with threads_in_safe_str := set_remove r.2.threads_in_safe_str tid })

/-- Static data of a Python function object as the tracer reads it:
`__name__`, `__doc__`, `inspect.getargspec(...).args`, `im_class.__name__`
for bound/unbound methods (`none` for plain functions), and whether the
`tracer` marker attribute is present. -/
structure PyFunc where
  fname : String
  fdoc : Option String
  args : List String
  im_class : Option String
  has_tracer : Bool
deriving Repr, DecidableEq, Inhabited

/-- The descriptor `_FunctionTracer` builds once at decoration time. -/
structure FunctionTracer where
  fname : String
  class_name : Option String
  arg_names : List String
  is_init : Bool
  has_self : Bool
deriving Repr, DecidableEq, Inhabited

/-- Model of `_FunctionTracer.__init__` together with `_get_details` and the
`arg_names` stripping done in `_select_handle_self`: the name and class name
are read off the function (with the explicit `class_name` argument as
fallback when the function carries no class), `is_init` holds iff the name
is `__init__`, `has_self` holds iff `self` occurs among the declared
argument names, and for a constructor with `self` the first declared
argument name is dropped from the displayed list. -/
def init_tracer (f : PyFunc) (class_name : Option String) : FunctionTracer :=
  let cn :=
    match f.im_class with
    | some c => some c
    | none => class_name
  let is_init := f.fname == "__init__"
  let has_self := f.args.contains "self"
  let arg_names := if has_self && is_init then f.args.tail else f.args
  { fname := f.fname, class_name := cn, arg_names := arg_names,
    is_init := is_init, has_self := has_self }

/-- Rendering of the `instance` local in a format placeholder: Python prints
`None` for the absent identity and the integer otherwise. -/
def inst_str (inst : Option Nat) : String :=
  match inst with
  | none => "None"
  | some n => toString n

/-- The qualified-name part of the precomputed format templates, as selected
by `_select_call_format`: `Class[instance].func`, `Class.func`,
`[instance].func` or bare `func`. -/
def name_str (t : FunctionTracer) (inst : Option Nat) : String :=
  match t.class_name, t.has_self with
  | some c, true => c ++ "[" ++ inst_str inst ++ "]." ++ t.fname
  | some c, false => c ++ "." ++ t.fname
  | none, true => "[" ++ inst_str inst ++ "]." ++ t.fname
  | none, false => t.fname

/-- The `_call_format` template with its runtime placeholders substituted. -/
def call_line (t : FunctionTracer) (tid : Nat) (inst : Option Nat)
    (pargs_text comma kwargs_text : String) : String :=
  "Thread\x7b" ++ toString tid ++ "\x7d:" ++ name_str t inst ++ "(" ++
    pargs_text ++ comma ++ kwargs_text ++ ")"

/-- The `_return_format` template with its runtime placeholders
substituted. -/
def return_line (t : FunctionTracer) (tid : Nat) (inst : Option Nat)
    (ret_text : String) : String :=
  "Thread\x7b" ++ toString tid ++ "\x7d:" ++ name_str t inst ++ " returned " ++ ret_text

/-- The `_exception_format` template with its runtime placeholders
substituted. -/
def exception_line (t : FunctionTracer) (tid : Nat) (inst : Option Nat) : String :=
  "Thread\x7b" ++ toString tid ++ "\x7d:" ++ name_str t inst ++ " raised an exception"

/-- Abstract rendering of `traceback.format_exc()`: the captured stack trace
of the active exception (its exact text is environment-dependent; only the
fact that it is emitted as a second message matters to the spec). -/
def format_exc (e : PyErr) : String :=
  match e with
  | .runtimeError => "Traceback (most recent call last): RuntimeError"
  | .typeError m => "Traceback (most recent call last): TypeError: " ++ m
  | .valueError m => "Traceback (most recent call last): ValueError: " ++ m
  | .unboundLocal v => "Traceback (most recent call last): UnboundLocalError: " ++ v

/-- Model of `_handle_self_remove_self` (constructor strategy): a `self`
keyword argument is removed from the keyword dict, else the first positional
argument is dropped; the identity of the removed receiver is captured. -/
def handle_self_remove_self {V : Type} (ident : V → Nat)
    (pargs : List V) (kwargs : List (String × V)) :
    List V × List (String × V) × Option Nat :=
  match kwargs.lookup "self" with
  | some v => (pargs, kwargs.filter (fun kv => decide (kv.1 ≠ "self")), some (ident v))
  | none =>
    match pargs with
    | p :: rest => (rest, kwargs, some (ident p))
    | [] => (pargs, kwargs, none)

/-- Model of `_handle_self_use_self` (plain instance-method strategy): the
arguments are left alone, only the receiver identity is captured. -/
def handle_self_use_self {V : Type} (ident : V → Nat)
    (pargs : List V) (kwargs : List (String × V)) :
    List V × List (String × V) × Option Nat :=
  match kwargs.lookup "self" with
  | some v => (pargs, kwargs, some (ident v))
  | none =>
    match pargs with
    | p :: _ => (pargs, kwargs, some (ident p))
    | [] => (pargs, kwargs, none)

/-- Model of `_handle_self_no_self`: no receiver, nothing to do. -/
def handle_self_no_self {V : Type} (pargs : List V) (kwargs : List (String × V)) :
    List V × List (String × V) × Option Nat :=
  (pargs, kwargs, none)

/-- The strategy dispatch of `_select_handle_self`. -/
def handle_self {V : Type} (t : FunctionTracer) (ident : V → Nat)
    (pargs : List V) (kwargs : List (String × V)) :
    List V × List (String × V) × Option Nat :=
  if t.has_self && t.is_init then handle_self_remove_self ident pargs kwargs
  else if t.has_self then handle_self_use_self ident pargs kwargs
  else handle_self_no_self pargs kwargs

/-- Model of `_format_arguments`: render each pair as `name=value` with the
value obtained through `_safe_str`, left to right, propagating the first
exception (later pairs are then never stringified). -/
def format_arguments {V : Type} (ops : ValOps V) (tid : Nat) :
    List (String × V) → TraceState → Except PyErr (List String) × TraceState
  | [], st => (.ok [], st)
  | kv :: rest, st =>
    match safe_str ops tid kv.2 st with
    | (.error e, st1) => (.error e, st1)
    | (.ok s, st1) =>
      match format_arguments ops tid rest st1 with
      | (.error e, st2) => (.error e, st2)
      | (.ok ss, st2) => (.ok ((kv.1 ++ "=" ++ s) :: ss), st2)

/-- Model of `_format_call`: positional names are paired with the (filtered)
positional values by `zip`, keyword arguments are rendered as given, the two
groups are joined with a comma exactly when both are non-empty, and the
result fills the `_call_format` template. -/
def format_call {V : Type} (ops : ValOps V) (t : FunctionTracer) (tid : Nat)
    (pargs : List V) (kwargs : List (String × V)) (inst : Option Nat)
    (st : TraceState) : Except PyErr String × TraceState :=
  match format_arguments ops tid (t.arg_names.zip pargs) st with
  | (.error e, st1) => (.error e, st1)
  | (.ok ps, st1) =>
    match format_arguments ops tid kwargs st1 with
    | (.error e, st2) => (.error e, st2)
    | (.ok ks, st2) =>
      let ptext := String.intercalate ", " ps
      let ktext := String.intercalate ", " ks
      let comma := if ptext == "" || ktext == "" then "" else ", "
      (.ok (call_line t tid inst ptext comma ktext), st2)

/-- Model of `_log_call`. -/
def log_call {V : Type} (ops : ValOps V) (t : FunctionTracer) (tid : Nat)
    (pargs : List V) (kwargs : List (String × V)) (inst : Option Nat)
    (st : TraceState) : Except PyErr Unit × TraceState :=
  match format_call ops t tid pargs kwargs inst st with
  | (.error e, st1) => (.error e, st1)
  | (.ok msg, st1) => (.ok (), output_msg msg st1)

/-- Model of `_log_return`: the return value is rendered by plain `str`
(the `format` call), not by `_safe_str`, so a failure here propagates into
the `try` block of `_call`. -/
def log_return {V : Type} (ops : ValOps V) (t : FunctionTracer) (ret : V)
    (inst : Option Nat) (tid : Nat) (st : TraceState) :
    Except PyErr Unit × TraceState :=
  match ops.pystr ret st with
  | (.error e, st1) => (.error e, st1)
  | (.ok s, st1) => (.ok (), output_msg (return_line t tid inst s) st1)

/-- Model of `_log_exception`: emit the exception-line, then the captured
stack trace as a second message. -/
def log_exception (t : FunctionTracer) (inst : Option Nat) (tid : Nat)
    (e : PyErr) (st : TraceState) : TraceState :=
  output_msg (format_exc e) (output_msg (exception_line t tid inst) st)

/-- Reading a Python local variable: raises `UnboundLocalError` when the
variable was never assigned on the path taken. -/
def read_local (x : Option Nat) (vname : String) : Except PyErr Nat :=
  match x with
  | some v => .ok v
  | none => .error (.unboundLocal vname)

/-- Model of lines 223-228 of `_FunctionTracer._call`: compute `looping`,
initialise `instance = 0` (the comment in the source says: in case an
exception is raised in a loop), and when not suppressed run `_handle_self`,
assign `thread_id` and emit the call-line.  Returns the `looping` flag, the
`instance` and `thread_id` locals (`none` = never assigned) and the outcome
of the PRE-CALL emission. -/
def call_pre {V : Type} (ops : ValOps V) (t : FunctionTracer) (tid : Nat)
    (pargs : List V) (kwargs : List (String × V)) (st : TraceState) :
    Bool × Option Nat × Option Nat × (Except PyErr Unit × TraceState) :=
  let looping := check_recursion_loop tid st
  if looping then
    (looping, some 0, none, (.ok (), st))
  else
    let h := handle_self t ops.ident pargs kwargs
    (looping, h.2.2, some tid, log_call ops t tid h.1 h.2.1 h.2.2 st)

/-- The `except:` handler of `_call`: evaluate the arguments of
`self._log_exception(instance, thread_id)` (reading `thread_id` raises
`UnboundLocalError` when it was never assigned, replacing the active
exception), emit the exception-line and trace, then re-raise. -/
def exc_branch (t : FunctionTracer) (inst : Option Nat)
    (thread_id : Option Nat) (e : PyErr) (st : TraceState) :
    PyErr × TraceState :=
  match read_local thread_id "thread_id" with
  | .error e2 => (e2, st)
  | .ok tv => (e, log_exception t inst tv e st)

/-- Model of the whole of `_FunctionTracer._call`: PRE-CALL (suppressed when
the recursion guard fires; a formatting failure there propagates before the
`try` block is entered), IN-CALL with the original, unmodified arguments,
POST-CALL success (return-line unless suppressed; a failure while rendering
the return value is caught by the bare `except`), POST-CALL failure
(exception-line and stack trace, then re-raise). -/
def tracer_call {V : Type} (ops : ValOps V) (t : FunctionTracer)
    (func : List V → List (String × V) → TraceState → Except PyErr V × TraceState)
    (tid : Nat) (pargs : List V) (kwargs : List (String × V)) (st : TraceState) :
    Except PyErr V × TraceState :=
  match call_pre ops t tid pargs kwargs st with
  | (_, _, _, (.error e, st1)) => (.error e, st1)
  | (looping, inst, thread_id, (.ok _, st1)) =>
    match func pargs kwargs st1 with
    | (.ok ret, st2) =>
      if looping then (.ok ret, st2)
      else
        match read_local thread_id "thread_id" with
        | .error e2 => (.error e2, st2)
        | .ok tv =>
          match log_return ops t ret inst tv st2 with
          | (.ok _, st3) => (.ok ret, st3)
          | (.error e, st3) =>
            let r := exc_branch t inst thread_id e st3
            (.error r.1, r.2)
    | (.error e, st2) =>
      let r := exc_branch t inst thread_id e st2
      (.error r.1, r.2)

/-- Model of the function object returned by
`_FunctionTracer.wrapped_function`: `__name__` and `__doc__` are copied from
the wrapped function, the signature is `(*pargs, **kwargs)` (so
`getargspec` sees an empty declared-argument list), it is a plain function
(no owning class), and the `tracer` marker attribute is set. -/
def wrapped_function (f : PyFunc) : PyFunc :=
  { fname := f.fname, fdoc := f.fdoc, args := [], im_class := none,
    has_tracer := true }

/-- Model of `_trace_method`: build the tracer (for its side conditions) and
return the wrapper function object. -/
def trace_method (f : PyFunc) (class_name : Option String) : PyFunc :=
  wrapped_function f

/-- The runtime behaviour of the wrapper returned by `_trace_method`:
invoking it runs `_call` on the tracer built from `f` at decoration time. -/
def traced_behavior {V : Type} (ops : ValOps V) (f : PyFunc)
    (class_name : Option String)
    (func : List V → List (String × V) → TraceState → Except PyErr V × TraceState)
    (tid : Nat) (pargs : List V) (kwargs : List (String × V)) (st : TraceState) :
    Except PyErr V × TraceState :=
  tracer_call ops (init_tracer f class_name) func tid pargs kwargs st

/-- The member kind delivered by `inspect.classify_class_attrs`, restricted to
the cases `_trace_class` distinguishes. -/
inductive AttrKind where
  | methodKind
  | staticMethodKind
  | classMethodKind
  | otherKind
deriving Repr, DecidableEq, Inhabited

/-- A callable member of a class as `_trace_class` sees it: its name, its
classification, and the underlying function object (for a class method this
is already the `__func__` of the bound object, which is what `_trace_class`
unwraps before re-wrapping). -/
structure ClassMember where
  mname : String
  kind : AttrKind
  func : PyFunc
deriving Repr, DecidableEq, Inhabited

/-- A class as `_trace_class` sees it: its `__name__` and its callable
members. -/
structure ClassModel where
  cname : String
  members : List ClassMember
deriving Repr, DecidableEq, Inhabited

/-- The body of the `for` loop of `_trace_class` for one member: a member
whose function already carries the `tracer` marker is skipped; an
instance/static/class method is replaced by a traced wrapper (the
staticmethod/classmethod re-binding preserves the wrapped function object);
anything else is skipped. -/
def trace_class_member (cn : String) (m : ClassMember) : ClassMember :=
  if m.func.has_tracer then m
  else
    match m.kind with
    | .methodKind => { m with func := trace_method m.func (some cn) }
    | .staticMethodKind => { m with func := trace_method m.func (some cn) }
    | .classMethodKind => { m with func := trace_method m.func (some cn) }
    | .otherKind => m

/-- Model of `_trace_class`: every callable member is processed in place and
the same class object is returned. -/
def trace_class (c : ClassModel) : ClassModel :=
  { c with members := c.members.map (trace_class_member c.cname) }

/-- A Python value carrying its identity and the outcome of `str` on it.
This is the simple value model, used for claims in which stringification
does not re-enter traced code. -/
structure Value where
  ident : Nat
  strRes : Except PyErr String
deriving Repr, Inhabited

/-- The `ValOps` instantiation for the simple value model: `str` neither
reads nor writes the trace state. -/
def value_ops : ValOps Value :=
  { ident := Value.ident, pystr := fun v st => (v.strRes, st) }

/-- The pure outcome of `_safe_str` on a simple value: the string, the
identity-tag fallback when `str` raises `RuntimeError`, or `none` when the
exception propagates. -/
def safe_render (v : Value) : Option String :=
  match v.strRes with
  | .ok s => some s
  | .error .runtimeError => some (toString v.ident)
  | .error _ => none

/-- Lift a pure Python callable (one that never touches the tracing state)
into the state-passing shape `tracer_call` expects. -/
def liftF (func : List Value → List (String × Value) → Except PyErr Value)
    (pargs : List Value) (kwargs : List (String × Value)) (st : TraceState) :
    Except PyErr Value × TraceState :=
  (func pargs kwargs, st)

/-- The possible arguments of the `trace` decorator: a class, a bound or
unbound method, a plain function, or any other object. -/
inductive PyObjRef where
  | classObj (c : ClassModel)
  | methodObj (f : PyFunc)
  | funcObj (f : PyFunc)
  | plainValue (v : Value)

/-- What `trace` returns on success. -/
inductive TraceResult where
  | classRes (c : ClassModel)
  | funcRes (f : PyFunc)

/-- Model of the `trace` decorator dispatch: classes go to `_trace_class`,
methods and functions go to `_trace_method`, anything else raises
`TypeError` at decoration time. -/
def trace : PyObjRef → Except PyErr TraceResult
  | .classObj c => .ok (.classRes (trace_class c))
  | .methodObj f => .ok (.funcRes (trace_method f none))
  | .funcObj f => .ok (.funcRes (trace_method f none))
  | .plainValue _ => .error (.typeError "Cannot trace this object.")

/-!
The recursive value model for the recursion-guard scenario of
`test_prevent_recursion_str`: a class `_TestClass` whose traced `__str__`
calls a second traced method `my_name` returning the plain string
`My Name`.  `str` on the object dispatches into the traced wrapper, so the
model is fuel-indexed; running out of fuel models exceeding the Python
recursion limit, which raises `RuntimeError`.
-/

/-- Values of the recursive scenario: plain strings, or the traced object. -/
inductive RVal where
  | vstr (s : String)
  | vobj (ident : Nat)
deriving Repr, DecidableEq, Inhabited

/-- Python `id` on scenario values (plain strings never have their identity
taken in the scenario, so it is fixed at 0). -/
def rval_ident : RVal → Nat
  | .vstr _ => 0
  | .vobj i => i

/-- The function object of `_TestClass.my_name`. -/
def my_name_func : PyFunc :=
  { fname := "my_name", fdoc := none, args := ["self"],
    im_class := some "_TestClass", has_tracer := false }

/-- The function object of `_TestClass.__str__`. -/
def str_method_func : PyFunc :=
  { fname := "__str__", fdoc := none, args := ["self"],
    im_class := some "_TestClass", has_tracer := false }

/-- The tracer built for `my_name` at decoration time. -/
def my_name_tracer : FunctionTracer := init_tracer my_name_func (some "_TestClass")

/-- The tracer built for `__str__` at decoration time. -/
def str_method_tracer : FunctionTracer := init_tracer str_method_func (some "_TestClass")

/-- The single thread of the scenario. -/
def scenario_tid : Nat := 7

/-- The traced wrapper of `my_name`, whose body returns the plain string
`My Name`; parametric in the ambient `str` semantics. -/
def rcall_my_name (pystr : RVal → TraceState → Except PyErr String × TraceState)
    (pargs : List RVal) (kwargs : List (String × RVal)) (st : TraceState) :
    Except PyErr RVal × TraceState :=
  tracer_call { ident := rval_ident, pystr := pystr } my_name_tracer
    (fun _ _ s => (.ok (RVal.vstr "My Name"), s))
    scenario_tid pargs kwargs st

/-- The traced wrapper of `__str__`, whose body is `return self.my_name()`,
a direct call of the second traced method. -/
def rcall_str_method (pystr : RVal → TraceState → Except PyErr String × TraceState)
    (pargs : List RVal) (kwargs : List (String × RVal)) (st : TraceState) :
    Except PyErr RVal × TraceState :=
  tracer_call { ident := rval_ident, pystr := pystr } str_method_tracer
    (fun p _ s =>
      match p.head? with
      | some selfv => rcall_my_name pystr [selfv] [] s
      | none => (.error (.typeError "missing self"), s))
    scenario_tid pargs kwargs st

/-- Python `str` on scenario values: a plain string is returned as is; on
the traced object it invokes the traced `__str__` wrapper (whose result
must be a string).  Fuel bounds the recursion depth; exhausting it raises
`RuntimeError` like the Python recursion limit. -/
def rpystr : Nat → RVal → TraceState → Except PyErr String × TraceState
  | 0, _, st => (.error .runtimeError, st)
  | _ + 1, .vstr s, st => (.ok s, st)
  | fuel + 1, .vobj i, st =>
    match rcall_str_method (rpystr fuel) [RVal.vobj i] [] st with
    | (.ok (.vstr s), st1) => (.ok s, st1)
    | (.ok (.vobj _), st1) => (.error (.typeError "__str__ returned non-string"), st1)
    | (.error e, st1) => (.error e, st1)

/-- Spec-side rendering of one displayed argument list, used to state what the
call-line contains: each pair as `name=value` with the value given by the pure
outcome of `_safe_str`. -/
def render_pairs (pairs : List (String × Value)) : List String :=
  pairs.map (fun p => p.1 ++ "=" ++ (safe_render p.2).getD "")

/-- Modelled from the spec: the classification the spec describes, reading
"whether the first declared parameter is the conventional receiver parameter
(by name)" literally.  Kept for comparison with `init_tracer`, which the
source implements by membership of `self` in the whole argument list. -/
def spec_has_receiver (f : PyFunc) : Bool :=
  f.args.head? == some "self"

theorem filter_ne_self {l : List Nat} {x : Nat} (h : x ∉ l) :
    l.filter (fun y => decide (y ≠ x)) = l :=
  List.filter_eq_self.2 (fun y hy => by
    simp only [decide_eq_true_eq, ne_eq]
    intro hxy; exact h (hxy ▸ hy))

theorem set_remove_set_add {l : List Nat} {x : Nat} (h : x ∉ l) :
    set_remove (set_add l x) x = l := by
  unfold set_add set_remove
  rw [if_neg h]
  have hstep : List.filter (fun y => decide (y ≠ x)) (x :: l) =
      List.filter (fun y => decide (y ≠ x)) l := by simp
  rw [hstep]
  exact filter_ne_self h

theorem not_mem_set_remove (l : List Nat) (x : Nat) : x ∉ set_remove l x := by
  intro h
  have := List.of_mem_filter h
  simp at this

theorem safe_str_value_ok {v : Value} {s : String} {tid : Nat} {st : TraceState}
    (h : safe_render v = some s) (ht : tid ∉ st.threads_in_safe_str) :
    safe_str value_ops tid v st = (.ok s, st) := by
  have hst : set_remove (set_add st.threads_in_safe_str tid) tid =
      st.threads_in_safe_str := set_remove_set_add ht
  cases hv : v.strRes with
  | ok s' =>
    simp only [safe_render, hv, Option.some.injEq] at h
    subst h
    simp [safe_str, value_ops, hv, hst]
  | error e =>
    cases e with
    | runtimeError =>
      simp only [safe_render, hv, Option.some.injEq] at h
      subst h
      simp [safe_str, value_ops, hv, hst]
    | typeError m => simp [safe_render, hv] at h
    | valueError m => simp [safe_render, hv] at h
    | unboundLocal vn => simp [safe_render, hv] at h

theorem format_arguments_ok {tid : Nat} :
    ∀ {pairs : List (String × Value)} {st : TraceState},
      tid ∉ st.threads_in_safe_str →
      (∀ p ∈ pairs, (safe_render p.2).isSome = true) →
      format_arguments value_ops tid pairs st = (.ok (render_pairs pairs), st) := by
  intro pairs
  induction pairs with
  | nil => intro st _ _; simp [format_arguments, render_pairs]
  | cons kv rest ih =>
    intro st ht h
    obtain ⟨s, hs⟩ := Option.isSome_iff_exists.1 (h kv (by simp))
    have hrest := ih ht (fun p hp => h p (by simp [hp]))
    simp only [format_arguments, safe_str_value_ok hs ht, hrest, render_pairs,
      List.map_cons, hs, Option.getD_some]

theorem format_call_ok (t : FunctionTracer) (tid : Nat) (pargs : List Value)
    (kwargs : List (String × Value)) (inst : Option Nat) (st : TraceState)
    (ht : tid ∉ st.threads_in_safe_str)
    (h1 : ∀ p ∈ t.arg_names.zip pargs, (safe_render p.2).isSome = true)
    (h2 : ∀ p ∈ kwargs, (safe_render p.2).isSome = true) :
    format_call value_ops t tid pargs kwargs inst st =
      (.ok (call_line t tid inst
        (String.intercalate ", " (render_pairs (t.arg_names.zip pargs)))
        (if String.intercalate ", " (render_pairs (t.arg_names.zip pargs)) == "" ||
            String.intercalate ", " (render_pairs kwargs) == "" then "" else ", ")
        (String.intercalate ", " (render_pairs kwargs))), st) := by
  simp only [format_call, format_arguments_ok ht h1, format_arguments_ok ht h2]

theorem value_ops_pystr (v : Value) (st : TraceState) :
    value_ops.pystr v st = (v.strRes, st) := rfl

theorem map_fst_zip_take {α β : Type} : ∀ (l1 : List α) (l2 : List β),
    l2.length ≤ l1.length → (l1.zip l2).map Prod.fst = l1.take l2.length
  | _, [], _ => by simp
  | [], _ :: _, h => by simp at h
  | a :: l1, b :: l2, h => by
    simp only [List.zip_cons_cons, List.map_cons, List.length_cons, List.take_succ_cons]
    rw [map_fst_zip_take l1 l2 (Nat.succ_le_succ_iff.1 h)]

theorem map_snd_zip_of_le {α β : Type} : ∀ (l1 : List α) (l2 : List β),
    l2.length ≤ l1.length → (l1.zip l2).map Prod.snd = l2
  | _, [], _ => by simp
  | [], _ :: _, h => by simp at h
  | a :: l1, b :: l2, h => by
    simp only [List.zip_cons_cons, List.map_cons]
    rw [map_snd_zip_of_le l1 l2 (Nat.succ_le_succ_iff.1 h)]

theorem trace_class_member_idem (cn : String) (m : ClassMember) :
    trace_class_member cn (trace_class_member cn m) = trace_class_member cn m := by
  by_cases h : m.func.has_tracer
  · simp [trace_class_member, h]
  · cases hk : m.kind <;>
      simp [trace_class_member, h, hk, trace_method, wrapped_function]

/-- Claim C1 (code bug).  The spec demands that even when trace emission is
suppressed by the recursion guard, a raising call still emits an
exception-line plus stack trace and re-raises the original exception
unchanged.  The code intends this (it pre-sets `instance = 0` "in case
exception is raised in a loop") but on the suppressed path `thread_id` is
never assigned, so evaluating the arguments of
`self._log_exception(instance, thread_id)` raises `UnboundLocalError`:
nothing is emitted and the original exception is replaced.  First conjunct:
the failing evaluation (suppressed invocation whose body raises
`TypeError("badaboom")`).  Second conjunct: the non-suppressed exception
path does behave as claimed, isolating the bug to the suppressed case. -/
theorem suppressed_exception_not_logged :
    tracer_call value_ops (init_tracer ⟨"boom", none, ["self"], some "_TestClass", false⟩ none)
        (liftF (fun _ _ => .error (.typeError "badaboom"))) 7 [⟨55, .ok "tc"⟩] []
        ⟨[7], []⟩ =
      (.error (.unboundLocal "thread_id"), ⟨[7], []⟩) ∧
    tracer_call value_ops (init_tracer ⟨"boom", none, ["self"], some "_TestClass", false⟩ none)
        (liftF (fun _ _ => .error (.typeError "badaboom"))) 7 [⟨55, .ok "tc"⟩] []
        ⟨[], []⟩ =
      (.error (.typeError "badaboom"),
       ⟨[], ["Thread\x7b7\x7d:_TestClass[55].boom(self=tc)",
             "Thread\x7b7\x7d:_TestClass[55].boom raised an exception",
             "Traceback (most recent call last): TypeError: badaboom"]⟩) :=
  ⟨rfl, rfl⟩

/-- Claim C2 (counterexample).  As stated, the claim fails on the code: for a
function that would return normally, an argument whose string-conversion
raises a non-`RuntimeError` exception makes the call-line formatting raise
before the `try` block, so zero emissions occur, the callable is never
invoked and the formatting exception propagates (first conjunct); and a
return value whose string-conversion raises turns a normal return into three
emissions and a propagated exception (second conjunct). -/
theorem two_emissions_fails_on_formatting_failure :
    (tracer_call value_ops (init_tracer ⟨"f", none, ["a"], none, false⟩ none)
        (liftF (fun _ _ => .ok ⟨12, .ok "40"⟩)) 3 [⟨5, .error (.valueError "nope")⟩] []
        ⟨[], []⟩ =
      (.error (.valueError "nope"), ⟨[], []⟩)) ∧
    (tracer_call value_ops (init_tracer ⟨"f", none, ["a"], none, false⟩ none)
        (liftF (fun _ _ => .ok ⟨12, .error (.valueError "retbad")⟩)) 3 [⟨5, .ok "1"⟩] []
        ⟨[], []⟩ =
      (.error (.valueError "retbad"),
       ⟨[], ["Thread\x7b3\x7d:f(a=1)", "Thread\x7b3\x7d:f raised an exception",
             "Traceback (most recent call last): ValueError: retbad"]⟩)) :=
  ⟨rfl, rfl⟩

/-- Claim C2 (amended).  For every traced callable invoked with positional
and keyword arguments that returns normally and is not suppressed by the
recursion guard — provided string-conversion of each displayed argument
succeeds or raises only `RuntimeError` (then rendered as the identity tag),
and string-conversion of the result succeeds — exactly two emissions occur
in order: a call-line listing the displayed arguments as `name=value` pairs
by declared parameter name, then a return-line containing the result; the
underlying callable is invoked with the original, unmodified arguments and
its return value is returned unchanged to the caller. -/
theorem tracer_call_normal_return (t : FunctionTracer)
    (func : List Value → List (String × Value) → Except PyErr Value)
    (tid : Nat) (pargs : List Value) (kwargs : List (String × Value))
    (st : TraceState) (ret : Value) (rtext : String)
    (hloop : check_recursion_loop tid st = false)
    (hargs : ∀ p ∈ t.arg_names.zip (handle_self t value_ops.ident pargs kwargs).1,
        (safe_render p.2).isSome = true)
    (hkw : ∀ p ∈ (handle_self t value_ops.ident pargs kwargs).2.1,
        (safe_render p.2).isSome = true)
    (hfunc : func pargs kwargs = .ok ret)
    (hret : ret.strRes = .ok rtext) :
    tracer_call value_ops t (liftF func) tid pargs kwargs st =
      (.ok ret,
        { st with output := st.output ++
          [call_line t tid (handle_self t value_ops.ident pargs kwargs).2.2
             (String.intercalate ", " (render_pairs
               (t.arg_names.zip (handle_self t value_ops.ident pargs kwargs).1)))
             (if String.intercalate ", " (render_pairs
                   (t.arg_names.zip (handle_self t value_ops.ident pargs kwargs).1)) == "" ||
                 String.intercalate ", " (render_pairs
                   (handle_self t value_ops.ident pargs kwargs).2.1) == ""
              then "" else ", ")
             (String.intercalate ", " (render_pairs
               (handle_self t value_ops.ident pargs kwargs).2.1)),
           return_line t tid (handle_self t value_ops.ident pargs kwargs).2.2 rtext] }) := by
  have ht : tid ∉ st.threads_in_safe_str := of_decide_eq_false hloop
  have hfc := format_call_ok t tid (handle_self t value_ops.ident pargs kwargs).1
    (handle_self t value_ops.ident pargs kwargs).2.1
    (handle_self t value_ops.ident pargs kwargs).2.2 st ht hargs hkw
  simp only [tracer_call, call_pre, hloop, Bool.false_eq_true, if_false,
    log_call, hfc, output_msg, liftF, hfunc, read_local, log_return,
    value_ops_pystr, hret]
  simp [List.append_assoc]

/-- Claim C2 witness: a concrete traced function with two positional and one
keyword argument, mirroring `test_function_decorating`. -/
theorem tracer_call_normal_return_witness :
    tracer_call value_ops (init_tracer ⟨"_test_func", none, ["a", "b", "c"], none, false⟩ none)
        (liftF (fun _ _ => .ok ⟨12, .ok "6"⟩)) 3 [⟨1, .ok "1"⟩, ⟨2, .ok "2"⟩]
        [("c", ⟨3, .ok "3"⟩)] ⟨[], []⟩ =
      (.ok ⟨12, .ok "6"⟩,
       ⟨[], ["Thread\x7b3\x7d:_test_func(a=1, b=2, c=3)",
             "Thread\x7b3\x7d:_test_func returned 6"]⟩) := by
  have h := tracer_call_normal_return
    (init_tracer ⟨"_test_func", none, ["a", "b", "c"], none, false⟩ none)
    (fun _ _ => .ok ⟨12, .ok "6"⟩) 3 [⟨1, .ok "1"⟩, ⟨2, .ok "2"⟩] [("c", ⟨3, .ok "3"⟩)]
    ⟨[], []⟩ ⟨12, .ok "6"⟩ "6" rfl (by decide) (by decide) rfl rfl
  exact h

/-- Claim C3 (confirmed).  First conjunct: whenever the current thread is
already inside `_safe_str` (the recursion guard fires), the tracer emits
neither call-line nor return-line for that invocation — its result and state
are exactly those of the wrapped body.  Second conjunct: invoking a traced
`__str__` that directly calls a second traced method `my_name`, as in
`test_prevent_recursion_str`, produces exactly four lines (method-call,
helper-call, helper-return, method-return) with no duplication, the nested
stringifications being fully suppressed. -/
theorem recursion_guard_suppresses_emission {V : Type} (ops : ValOps V)
    (t : FunctionTracer)
    (func : List V → List (String × V) → TraceState → Except PyErr V × TraceState)
    (tid : Nat) (pargs : List V) (kwargs : List (String × V)) (st st1 : TraceState)
    (v : V)
    (hloop : check_recursion_loop tid st = true)
    (hfunc : func pargs kwargs st = (.ok v, st1)) :
    tracer_call ops t func tid pargs kwargs st = (.ok v, st1) ∧
    rpystr 11 (RVal.vobj 99) ⟨[], []⟩ =
      (.ok "My Name",
       ⟨[], ["Thread\x7b7\x7d:_TestClass[99].__str__(self=My Name)",
             "Thread\x7b7\x7d:_TestClass[99].my_name(self=My Name)",
             "Thread\x7b7\x7d:_TestClass[99].my_name returned My Name",
             "Thread\x7b7\x7d:_TestClass[99].__str__ returned My Name"]⟩) := by
  constructor
  · simp only [tracer_call, call_pre, hloop, if_true, hfunc]
  · rfl

/-- Claim C3 witness: a concrete suppressed invocation returning normally,
plus the concrete four-line `__str__` scenario. -/
theorem recursion_guard_suppresses_emission_witness :
    tracer_call value_ops (init_tracer ⟨"method", none, ["self"], some "_TestClass", false⟩ none)
        (liftF (fun _ _ => .ok ⟨1, .ok "Return"⟩)) 7 [⟨99, .ok "tc"⟩] [] ⟨[7], []⟩ =
      (.ok ⟨1, .ok "Return"⟩, ⟨[7], []⟩) ∧
    rpystr 11 (RVal.vobj 99) ⟨[], []⟩ =
      (.ok "My Name",
       ⟨[], ["Thread\x7b7\x7d:_TestClass[99].__str__(self=My Name)",
             "Thread\x7b7\x7d:_TestClass[99].my_name(self=My Name)",
             "Thread\x7b7\x7d:_TestClass[99].my_name returned My Name",
             "Thread\x7b7\x7d:_TestClass[99].__str__ returned My Name"]⟩) :=
  recursion_guard_suppresses_emission value_ops
    (init_tracer ⟨"method", none, ["self"], some "_TestClass", false⟩ none)
    (liftF (fun _ _ => .ok ⟨1, .ok "Return"⟩)) 7 [⟨99, .ok "tc"⟩] [] ⟨[7], []⟩ ⟨[7], []⟩
    ⟨1, .ok "Return"⟩ rfl rfl

/-- Claim C4 (counterexample).  `_safe_str` catches only `RuntimeError`: a
value whose string-conversion raises `ValueError` has the failure propagated
to the caller, contradicting "never propagated" (the guard is still
released). -/
theorem safe_str_propagates_value_error :
    safe_str value_ops 5 ⟨21, .error (.valueError "nope")⟩ ⟨[], []⟩ =
      (.error (.valueError "nope"), ⟨[], []⟩) := rfl

/-- Claim C4 (amended).  For every value passed to `_safe_str`: if its
string-conversion raises `RuntimeError` the failure is recovered locally by
substituting the identity tag `str(id(obj))`; any other exception
propagates; and the recursion-guard marker for the current thread is
released on every exit path (normal return, fallback, or failure) — in
particular the thread id is never left in the guard set, and when the
thread was not already marked the state is fully restored. -/
theorem safe_str_guard_release_and_fallback (v : Value) (tid : Nat) (st : TraceState) :
    (∀ s, v.strRes = .ok s →
      safe_str value_ops tid v st =
        (.ok s, ⟨set_remove (set_add st.threads_in_safe_str tid) tid, st.output⟩)) ∧
    (v.strRes = .error .runtimeError →
      safe_str value_ops tid v st =
        (.ok (toString v.ident),
         ⟨set_remove (set_add st.threads_in_safe_str tid) tid, st.output⟩)) ∧
    (∀ e, v.strRes = .error e → e ≠ .runtimeError →
      safe_str value_ops tid v st =
        (.error e, ⟨set_remove (set_add st.threads_in_safe_str tid) tid, st.output⟩)) ∧
    tid ∉ (safe_str value_ops tid v st).2.threads_in_safe_str ∧
    (tid ∉ st.threads_in_safe_str → (safe_str value_ops tid v st).2 = st) := by
  refine ⟨?_, ?_, ?_, ?_, ?_⟩
  · intro s hs; simp [safe_str, value_ops, hs]
  · intro hs; simp [safe_str, value_ops, hs]
  · intro e hs hne
    cases e with
    | runtimeError => exact absurd rfl hne
    | typeError m => simp [safe_str, value_ops, hs]
    | valueError m => simp [safe_str, value_ops, hs]
    | unboundLocal m => simp [safe_str, value_ops, hs]
  · exact not_mem_set_remove _ _
  · intro ht
    have h2 : (safe_str value_ops tid v st).2 =
        ⟨set_remove (set_add st.threads_in_safe_str tid) tid, st.output⟩ := rfl
    rw [h2, set_remove_set_add ht]

/-- Claim C4 witness: the `RuntimeError` fallback substitutes the identity
tag, and a plain value passes through, both with the state restored. -/
theorem safe_str_guard_release_witness :
    safe_str value_ops 5 ⟨21, .error .runtimeError⟩ ⟨[], []⟩ = (.ok "21", ⟨[], []⟩) ∧
    safe_str value_ops 5 ⟨22, .ok "hello"⟩ ⟨[], []⟩ = (.ok "hello", ⟨[], []⟩) :=
  ⟨(safe_str_guard_release_and_fallback ⟨21, .error .runtimeError⟩ 5 ⟨[], []⟩).2.1 rfl,
   (safe_str_guard_release_and_fallback ⟨22, .ok "hello"⟩ 5 ⟨[], []⟩).1 "hello" rfl⟩

/-- Claim C5 (confirmed).  For a traced constructor (`__init__` whose first
declared parameter is `self`): the receiver is stripped from the displayed
argument list whether passed positionally (first two conjuncts of the
strategy) or by keyword; the displayed positional-name list, the names paired
by `zip`, and the filtered keyword names never contain `self`; and when the
invocation is suppressed before PRE-CALL, the identity that the exception
path receives is the sentinel `0`. -/
theorem constructor_receiver_stripped (f : PyFunc) (cn : Option String)
    (tl : List String)
    (hname : f.fname = "__init__") (hargs : f.args = "self" :: tl)
    (hnd : f.args.Nodup) :
    (∀ {V : Type} (idf : V → Nat) (selfv : V) (rest : List V)
        (kwargs : List (String × V)), kwargs.lookup "self" = none →
      handle_self (init_tracer f cn) idf (selfv :: rest) kwargs =
        (rest, kwargs, some (idf selfv))) ∧
    (∀ {V : Type} (idf : V → Nat) (pargs : List V)
        (kwargs : List (String × V)) (v : V), kwargs.lookup "self" = some v →
      handle_self (init_tracer f cn) idf pargs kwargs =
        (pargs, kwargs.filter (fun kv => decide (kv.1 ≠ "self")), some (idf v))) ∧
    "self" ∉ (init_tracer f cn).arg_names ∧
    (∀ {V : Type} (fp : List V),
      "self" ∉ ((init_tracer f cn).arg_names.zip fp).map Prod.fst) ∧
    (∀ {V : Type} (kwargs : List (String × V)),
      "self" ∉ (kwargs.filter (fun kv => decide (kv.1 ≠ "self"))).map Prod.fst) ∧
    (∀ {V : Type} (ops : ValOps V) (tid : Nat) (pargs : List V)
        (kwargs : List (String × V)) (st : TraceState),
      check_recursion_loop tid st = true →
      (call_pre ops (init_tracer f cn) tid pargs kwargs st).2.1 = some 0) := by
  have hhs : (init_tracer f cn).has_self = true := by
    simp [init_tracer, hargs]
  have hii : (init_tracer f cn).is_init = true := by
    simp [init_tracer, hname]
  have han : (init_tracer f cn).arg_names = tl := by
    simp [init_tracer, hargs, hname]
  have hself_tl : "self" ∉ tl := by
    have : ("self" :: tl).Nodup := hargs ▸ hnd
    exact (List.nodup_cons.1 this).1
  refine ⟨?_, ?_, ?_, ?_, ?_, ?_⟩
  · intro V idf selfv rest kwargs hk
    simp [handle_self, hhs, hii, handle_self_remove_self, hk]
  · intro V idf pargs kwargs v hk
    simp [handle_self, hhs, hii, handle_self_remove_self, hk]
  · rw [han]; exact hself_tl
  · intro V fp hmem
    rw [han] at hmem
    obtain ⟨p, hp, hfst⟩ := List.mem_map.1 hmem
    exact hself_tl (hfst ▸ (List.of_mem_zip hp).1)
  · intro V kwargs hmem
    obtain ⟨kv, hkv, hfst⟩ := List.mem_map.1 hmem
    have := List.of_mem_filter hkv
    simp only [decide_eq_true_eq] at this
    exact this hfst
  · intro V ops tid pargs kwargs st hloop
    simp [call_pre, hloop]

/-- Claim C5 witness: a concrete constructor call with the receiver passed
positionally, and a concrete suppressed `call_pre` yielding the sentinel. -/
theorem constructor_receiver_stripped_witness :
    handle_self (init_tracer ⟨"__init__", none, ["self", "a"], some "_TestClass", false⟩ none)
        Value.ident [⟨9, .ok "tc"⟩, ⟨1, .ok "1"⟩] [] =
      ([⟨1, .ok "1"⟩], [], some 9) ∧
    (call_pre value_ops
        (init_tracer ⟨"__init__", none, ["self", "a"], some "_TestClass", false⟩ none)
        7 [] [] ⟨[7], []⟩).2.1 = some 0 := by
  have h := constructor_receiver_stripped
    ⟨"__init__", none, ["self", "a"], some "_TestClass", false⟩ none ["a"] rfl rfl (by decide)
  exact ⟨h.1 Value.ident ⟨9, .ok "tc"⟩ [⟨1, .ok "1"⟩] [] rfl,
         h.2.2.2.2.2 value_ops 7 [] [] ⟨[7], []⟩ rfl⟩

/-- Claim C6 (counterexample).  The source classifies a callable as having a
receiver by membership of `self` anywhere in the declared argument list, not
by its first declared parameter: for a function declared `f(a, self)` the
spec-side first-parameter classification says no receiver, yet the tracer
sets `has_self` and selects a display format with an identity tag. -/
theorem receiver_not_first_parameter :
    spec_has_receiver ⟨"f", none, ["a", "self"], none, false⟩ = false ∧
    (init_tracer ⟨"f", none, ["a", "self"], none, false⟩ none).has_self = true ∧
    name_str (init_tracer ⟨"f", none, ["a", "self"], none, false⟩ none) (some 4) =
      "[4].f" :=
  ⟨rfl, rfl, rfl⟩

/-- Claim C6 (amended).  A traced callable is classified as having a
receiver exactly when the conventional receiver name `self` appears among
its declared parameter names; the qualified display name contains an
identity tag exactly for callables with a receiver (without one the display
is independent of any identity), so static and class methods — which do not
declare `self` — never display an identity tag; and a class method displays
the class object itself as the value of its first parameter `cls` in the
argument list, as in `test_class_method`. -/
theorem receiver_by_membership (f : PyFunc) (cn : Option String)
    (t : FunctionTracer) (i j : Option Nat) (k : Nat) :
    ((init_tracer f cn).has_self = f.args.contains "self") ∧
    (t.has_self = false → name_str t i = name_str t j) ∧
    (t.has_self = true → name_str t (some k) =
      (match t.class_name with
       | some c => c ++ "[" ++ toString k ++ "]." ++ t.fname
       | none => "[" ++ toString k ++ "]." ++ t.fname)) ∧
    format_call value_ops
        (init_tracer ⟨"test_method", none, ["cls", "a", "b", "c", "d"], none, false⟩
          (some "_TestClass"))
        3 [⟨77, .ok "<class _TestClass>"⟩, ⟨1, .ok "1"⟩, ⟨2, .ok "2"⟩]
        [("c", ⟨3, .ok "3"⟩)] none ⟨[], []⟩ =
      (.ok "Thread\x7b3\x7d:_TestClass.test_method(cls=<class _TestClass>, a=1, b=2, c=3)",
       ⟨[], []⟩) := by
  refine ⟨rfl, ?_, ?_, rfl⟩
  · intro h; cases hc : t.class_name <;> simp [name_str, h, hc]
  · intro h; cases hc : t.class_name <;> simp [name_str, h, hc, inst_str]

/-- Claim C6 witness: the display of a receiver-less (static-method style)
tracer is independent of the instance identity. -/
theorem receiver_by_membership_witness :
    name_str (init_tracer ⟨"sm", none, ["a"], none, false⟩ (some "_TestClass")) (some 5) =
      name_str (init_tracer ⟨"sm", none, ["a"], none, false⟩ (some "_TestClass")) none :=
  (receiver_by_membership ⟨"sm", none, ["a"], none, false⟩ none
    (init_tracer ⟨"sm", none, ["a"], none, false⟩ (some "_TestClass")) (some 5) none 0).2.1 rfl

/-- Claim C7 (counterexample).  The marker-skip lives only in
`_trace_class`: applying `trace` directly to an already-wrapped function
wraps it again (despite the `tracer` marker being set), and one invocation
of the doubly-wrapped function emits two call-line/return-line pairs (four
lines) where the singly-wrapped one emits one pair. -/
theorem double_decoration_double_wraps :
    (trace_method ⟨"f", some "doc", ["a"], none, false⟩ none).has_tracer = true ∧
    trace (.funcObj (trace_method ⟨"f", some "doc", ["a"], none, false⟩ none)) =
      .ok (.funcRes (trace_method (trace_method ⟨"f", some "doc", ["a"], none, false⟩ none) none)) ∧
    (tracer_call value_ops (init_tracer ⟨"f", some "doc", ["a"], none, false⟩ none)
        (liftF (fun _ _ => .ok ⟨12, .ok "40"⟩)) 3 [⟨11, .ok "1"⟩] [] ⟨[], []⟩).2.output =
      ["Thread\x7b3\x7d:f(a=1)", "Thread\x7b3\x7d:f returned 40"] ∧
    (tracer_call value_ops
        (init_tracer (trace_method ⟨"f", some "doc", ["a"], none, false⟩ none) none)
        (fun p k s => tracer_call value_ops (init_tracer ⟨"f", some "doc", ["a"], none, false⟩ none)
          (liftF (fun _ _ => .ok ⟨12, .ok "40"⟩)) 3 p k s)
        3 [⟨11, .ok "1"⟩] [] ⟨[], []⟩).2.output =
      ["Thread\x7b3\x7d:f()", "Thread\x7b3\x7d:f(a=1)", "Thread\x7b3\x7d:f returned 40",
       "Thread\x7b3\x7d:f returned 40"] :=
  ⟨rfl, rfl, rfl, rfl⟩

/-- Claim C7 (amended).  Applying the trace decoration twice to the same
class is behaviourally equal to applying it once: every member wrapped by
the first pass carries the `tracer` marker attribute and is skipped by the
second, so `_trace_class` is idempotent.  Applying the decoration directly
to a function or method, by contrast, always wraps (the dispatch performs no
marker check), so direct double decoration double-wraps. -/
theorem class_decoration_idempotent :
    (∀ c : ClassModel, trace_class (trace_class c) = trace_class c) ∧
    (∀ f : PyFunc, trace (.funcObj f) = .ok (.funcRes (trace_method f none))) ∧
    (∀ f : PyFunc, (trace_method f none).has_tracer = true) := by
  refine ⟨?_, fun _ => rfl, fun _ => rfl⟩
  intro c
  unfold trace_class
  simp only [List.map_map]
  congr 1
  exact List.map_congr_left (fun m _ => trace_class_member_idem c.cname m)

/-- Claim C8 (confirmed).  Decorating an object that is none of
function/method/class raises `TypeError` immediately at decoration time
(the error is the value of the decoration itself, not of any later call);
a class, method or function is decorated without error. -/
theorem trace_rejects_non_callables :
    (∀ v : Value, trace (.plainValue v) = .error (.typeError "Cannot trace this object.")) ∧
    (∀ c : ClassModel, ∃ r, trace (.classObj c) = .ok r) ∧
    (∀ f : PyFunc, ∃ r, trace (.methodObj f) = .ok r) ∧
    (∀ f : PyFunc, ∃ r, trace (.funcObj f) = .ok r) :=
  ⟨fun _ => rfl, fun _ => ⟨_, rfl⟩, fun _ => ⟨_, rfl⟩, fun _ => ⟨_, rfl⟩⟩

/-- Claim C9 (confirmed).  For every function or method passed to the trace
decoration, the returned wrapper has `__name__` and `__doc__` identical to
those of the original callable. -/
theorem wrapper_preserves_name_and_doc (f : PyFunc) (cn : Option String) :
    (trace_method f cn).fname = f.fname ∧ (trace_method f cn).fdoc = f.fdoc ∧
    trace (.funcObj f) = .ok (.funcRes (trace_method f none)) ∧
    trace (.methodObj f) = .ok (.funcRes (trace_method f none)) :=
  ⟨rfl, rfl, rfl, rfl⟩

/-- Claim C10 (confirmed).  When a traced callable is invoked with fewer
positional arguments than it declares, the call-line displays only the
arguments actually passed: `zip` pairs the declared names in order with the
passed positional values (exactly `length pargs` of them), only passed
keyword arguments appear, and a declared parameter left to its default
value never occurs among the displayed names; the rendered call-line
contains exactly those pairs. -/
theorem defaults_not_displayed (t : FunctionTracer) (pargs : List Value)
    (kwargs : List (String × Value)) (n : String)
    (hlen : pargs.length ≤ t.arg_names.length) (hnd : t.arg_names.Nodup) :
    ((t.arg_names.zip pargs).map Prod.fst = t.arg_names.take pargs.length) ∧
    ((t.arg_names.zip pargs).map Prod.snd = pargs) ∧
    (n ∈ t.arg_names.drop pargs.length → n ∉ kwargs.map Prod.fst →
      n ∉ ((t.arg_names.zip pargs).map Prod.fst ++ kwargs.map Prod.fst)) ∧
    (∀ (tid : Nat) (st : TraceState) (inst : Option Nat),
      tid ∉ st.threads_in_safe_str →
      (∀ p ∈ t.arg_names.zip pargs, (safe_render p.2).isSome = true) →
      (∀ p ∈ kwargs, (safe_render p.2).isSome = true) →
      format_call value_ops t tid pargs kwargs inst st =
        (.ok (call_line t tid inst
          (String.intercalate ", " (render_pairs (t.arg_names.zip pargs)))
          (if String.intercalate ", " (render_pairs (t.arg_names.zip pargs)) == "" ||
              String.intercalate ", " (render_pairs kwargs) == "" then "" else ", ")
          (String.intercalate ", " (render_pairs kwargs))), st)) := by
  refine ⟨map_fst_zip_take _ _ hlen, map_snd_zip_of_le _ _ hlen, ?_, ?_⟩
  · intro hdrop hkw hmem
    rcases List.mem_append.1 hmem with hl | hr
    · rw [map_fst_zip_take _ _ hlen] at hl
      have hdisj : List.Disjoint (t.arg_names.take pargs.length)
          (t.arg_names.drop pargs.length) := List.disjoint_take_drop hnd le_rfl
      exact hdisj hl hdrop
    · exact hkw hr
  · intro tid st inst ht h1 h2
    exact format_call_ok t tid pargs kwargs inst st ht h1 h2

/-- Claim C10 witness: `_test_func(a, b, c, d=34)` called as
`_test_func(1, 2, c=3)`, mirroring `test_function_decorating`: the default
parameter `d` is not displayed. -/
theorem defaults_not_displayed_witness :
    format_call value_ops (init_tracer ⟨"_test_func", none, ["a", "b", "c", "d"], none, false⟩ none)
        3 [⟨1, .ok "1"⟩, ⟨2, .ok "2"⟩] [("c", ⟨3, .ok "3"⟩)] none ⟨[], []⟩ =
      (.ok "Thread\x7b3\x7d:_test_func(a=1, b=2, c=3)", ⟨[], []⟩) ∧
    "d" ∉ (((init_tracer ⟨"_test_func", none, ["a", "b", "c", "d"], none, false⟩ none).arg_names.zip
        [(⟨1, .ok "1"⟩ : Value), ⟨2, .ok "2"⟩]).map Prod.fst ++
        ([("c", (⟨3, .ok "3"⟩ : Value))].map Prod.fst)) := by
  have h := defaults_not_displayed
    (init_tracer ⟨"_test_func", none, ["a", "b", "c", "d"], none, false⟩ none)
    [⟨1, .ok "1"⟩, ⟨2, .ok "2"⟩] [("c", ⟨3, .ok "3"⟩)] "d" (by decide) (by decide)
  exact ⟨h.2.2.2 3 ⟨[], []⟩ none (by simp) (by decide) (by decide),
         h.2.2.1 (by decide) (by decide)⟩

end CallTrace
